import Mathlib

/-!
Verification of the DOM-readiness probe in
`src/recipe_app/static/js/main.js`.

The script registers a single `DOMContentLoaded` callback which
1. logs an informational initialization message,
2. queries the document for the first `main` element,
3. if found, logs an informational message with the character count of
   the element's serialized inner markup (`innerHTML.length`),
4. otherwise logs an error-level message.

We embed the document as a tree of element/text nodes, `innerHTML` as the
serialization of a node's children, `querySelector` as the first matching
element in document (preorder) order, and the console as a list of
structured diagnostics.
-/

namespace PlatefulAI

/-- A DOM node: either a text node or an element with a tag and children. -/
inductive Node where
  | text (s : String) : Node
  | element (tag : String) (children : List Node) : Node

/-- A document is the list of top-level nodes of its element tree. -/
abbrev Document := List Node

mutual
/-- Serialized markup of a single node (`outerHTML` for elements). -/
def serializeNode : Node → String
  | Node.text s => s
  | Node.element tag children =>
      "<" ++ tag ++ ">" ++ serializeNodes children ++ "</" ++ tag ++ ">"

/-- Serialized markup of a list of sibling nodes. -/
def serializeNodes : List Node → String
  | [] => ""
  | n :: ns => serializeNode n ++ serializeNodes ns
end

/-- `innerHTML`: the serialized markup of a node's children (inner content
only, excluding the node's own tags). Text nodes have no inner markup. -/
def Node.innerHTML : Node → String
  | Node.text _ => ""
  | Node.element _ children => serializeNodes children

mutual
/-- All elements matching a tag selector, in document (preorder) order. -/
def matchingElements (sel : String) : List Node → List Node
  | [] => []
  | n :: ns => matchingElementsNode sel n ++ matchingElements sel ns

/-- Matching elements in the subtree rooted at one node, the root first. -/
def matchingElementsNode (sel : String) : Node → List Node
  | Node.text _ => []
  | Node.element tag children =>
      (if tag = sel then [Node.element tag children] else []) ++
        matchingElements sel children
end

/-- `document.querySelector(sel)`: the first element in document order
matching the tag selector, or `none`. -/
def Document.querySelector (doc : Document) (sel : String) : Option Node :=
  (matchingElements sel doc).head?

/-- Severity of a console diagnostic: `console.log` is informational,
`console.error` is error-level. -/
inductive Severity where
  | info
  | error
deriving DecidableEq

/-- The three diagnostics the script can emit. -/
inductive Diag where
  | initSuccess
  | contentFound (len : Nat)
  | contentNotFound
deriving DecidableEq

/-- Severity of each diagnostic, following which console method emits it. -/
def Diag.severity : Diag → Severity
  | Diag.initSuccess => Severity.info
  | Diag.contentFound _ => Severity.info
  | Diag.contentNotFound => Severity.error

/-- The human-readable message of each diagnostic. -/
def Diag.message : Diag → String
  | Diag.initSuccess => "Recipe app initialized successfully"
  | Diag.contentFound len =>
      "Main content found: " ++ toString len ++ " characters"
  | Diag.contentNotFound => "Main content not found"

/-- The numeric value appended to a diagnostic, when there is one. -/
def Diag.numValue : Diag → Option Nat
  | Diag.contentFound len => some len
  | _ => none

/-- The body of the `DOMContentLoaded` callback: log the initialization
message, query for `main`, then log the inner-markup length if found and
an error otherwise. Returns the emitted diagnostics in order. -/
def domContentLoadedHandler (doc : Document) : List Diag :=
  [Diag.initSuccess] ++
    (match Document.querySelector doc "main" with
     | some mainContent =>
         [Diag.contentFound mainContent.innerHTML.length]
     | none => [Diag.contentNotFound])

/-- Browser state visible to the script: the document and the console. -/
structure BrowserState where
  document : Document
  consoleLog : List Diag

/-- One run of the probe as a state transformer: the handler only reads
the document and appends its diagnostics to the console. -/
def runProbe (s : BrowserState) : BrowserState :=
  { document := s.document
    consoleLog := s.consoleLog ++ domContentLoadedHandler s.document }

/-- Modelled from the spec: the host's `DOMContentLoaded` lifecycle event
fires exactly once per page load, at structural parse completion; the
source registers against it but the firing discipline is host behavior
absent from `src/`. -/
def firedLifecycleEvents : List String := ["DOMContentLoaded"]

/-- An event-listener registration: an event name and a callback. -/
structure Registration where
  eventName : String
  callback : Document → List Diag

/-- The script's only registration:
`document.addEventListener('DOMContentLoaded', ...)`. -/
def scriptRegistrations : List Registration :=
  [⟨"DOMContentLoaded", domContentLoadedHandler⟩]

/-- Dispatch of one lifecycle event: run every callback registered for it,
collecting their diagnostic output in order. -/
def dispatchEvent (doc : Document) (ev : String) : List Diag :=
  ((scriptRegistrations.filter (fun r => r.eventName == ev)).map
    (fun r => r.callback doc)).flatten

/-- A full page load: dispatch each fired lifecycle event in order. -/
def runPageLoad (doc : Document) : List Diag :=
  (firedLifecycleEvents.map (dispatchEvent doc)).flatten

/-- C1: whenever a `main` element exists whose serialized inner markup has
length `L`, the probe emits exactly one informational diagnostic carrying
the value `L`. -/
theorem probe_reports_length_exactly_once (doc : Document) (e : Node) (L : Nat)
    (h : Document.querySelector doc "main" = some e)
    (hL : e.innerHTML.length = L) :
    (domContentLoadedHandler doc).countP
      (fun d => d.severity == Severity.info && d.numValue == some L) = 1 := by
  subst hL
  simp [domContentLoadedHandler, h, Diag.severity, Diag.numValue]

/-- C1 witness: on a document containing `<main>Hello</main>` the probe
emits exactly one informational diagnostic carrying the value 5. -/
theorem probe_reports_length_exactly_once_witness :
    (domContentLoadedHandler [Node.element "main" [Node.text "Hello"]]).countP
      (fun d => d.severity == Severity.info && d.numValue == some 5) = 1 :=
  probe_reports_length_exactly_once _ (Node.element "main" [Node.text "Hello"])
    5 rfl rfl

/-- C2: when no `main` element exists, the probe emits exactly one
error-level diagnostic and zero informational diagnostics carrying a
content-length value. -/
theorem absence_reports_error_exactly_once (doc : Document)
    (h : Document.querySelector doc "main" = none) :
    (domContentLoadedHandler doc).countP
      (fun d => d.severity == Severity.error) = 1 ∧
    (domContentLoadedHandler doc).countP
      (fun d => d.severity == Severity.info && (d.numValue).isSome) = 0 := by
  simp [domContentLoadedHandler, h, Diag.severity, Diag.numValue]

/-- C2 witness: on a document with a `div` but no `main`, exactly one
error-level diagnostic and no informational length diagnostic. -/
theorem absence_reports_error_exactly_once_witness :
    (domContentLoadedHandler [Node.element "div" [Node.text "x"]]).countP
      (fun d => d.severity == Severity.error) = 1 ∧
    (domContentLoadedHandler [Node.element "div" [Node.text "x"]]).countP
      (fun d => d.severity == Severity.info && (d.numValue).isSome) = 0 :=
  absence_reports_error_exactly_once [Node.element "div" [Node.text "x"]] rfl

/-- C3: when a `main` element is found, the reported size is the exact
character count of its serialized inner markup (inner content only,
excluding the element's own tags). -/
theorem reported_size_is_inner_markup_length (doc : Document)
    (tag : String) (children : List Node)
    (h : Document.querySelector doc "main" = some (Node.element tag children)) :
    domContentLoadedHandler doc =
      [Diag.initSuccess, Diag.contentFound (serializeNodes children).length] := by
  simp [domContentLoadedHandler, h, Node.innerHTML]

/-- C3 witness: for a document containing `<main><p>Soup</p></main>` the
reported length is 11, the character count of the serialized inner markup
`<p>Soup</p>`. -/
theorem reported_size_is_inner_markup_length_witness :
    domContentLoadedHandler
        [Node.element "main" [Node.element "p" [Node.text "Soup"]]] =
      [Diag.initSuccess, Diag.contentFound 11] :=
  reported_size_is_inner_markup_length _ "main"
    [Node.element "p" [Node.text "Soup"]] rfl

/-- C4: on every page load the probe emits its initialization diagnostic
exactly once, and it comes before any outcome diagnostic (the sequence
starts with it). -/
theorem init_diag_first_and_once (doc : Document) :
    (domContentLoadedHandler doc).head? = some Diag.initSuccess ∧
    (domContentLoadedHandler doc).countP (fun d => d == Diag.initSuccess) = 1 := by
  cases h : Document.querySelector doc "main" <;>
    simp [domContentLoadedHandler, h]

/-- C5: absence of the `main` element is not fatal: it is reported through
an error-level diagnostic, and the handler still runs to normal completion,
producing its complete diagnostic sequence; for every document the handler
totally computes exactly two diagnostics, so the presence check is its only
branch point. -/
theorem absence_is_reported_not_fatal (doc : Document)
    (h : Document.querySelector doc "main" = none) :
    Diag.severity Diag.contentNotFound = Severity.error ∧
    domContentLoadedHandler doc = [Diag.initSuccess, Diag.contentNotFound] ∧
    ∀ d : Document, (domContentLoadedHandler d).length = 2 := by
  refine ⟨rfl, by simp [domContentLoadedHandler, h], ?_⟩
  intro d
  cases hd : Document.querySelector d "main" <;>
    simp [domContentLoadedHandler, hd]

/-- C5 witness: on the empty document the absence is reported and the
handler completes with its full two-diagnostic sequence. -/
theorem absence_is_reported_not_fatal_witness :
    Diag.severity Diag.contentNotFound = Severity.error ∧
    domContentLoadedHandler [] = [Diag.initSuccess, Diag.contentNotFound] ∧
    ∀ d : Document, (domContentLoadedHandler d).length = 2 :=
  absence_is_reported_not_fatal [] rfl

/-- C9: every run of the probe emits exactly two diagnostics: the
initialization informational first, then exactly one outcome diagnostic
(a length report when `main` is found, the error otherwise). -/
theorem exactly_two_diagnostics (doc : Document) :
    (domContentLoadedHandler doc).length = 2 ∧
    (domContentLoadedHandler doc).head? = some Diag.initSuccess ∧
    ((domContentLoadedHandler doc).getLast? = some Diag.contentNotFound ∨
      ∃ L, (domContentLoadedHandler doc).getLast? = some (Diag.contentFound L)) := by
  cases h : Document.querySelector doc "main" <;>
    simp [domContentLoadedHandler, h]

/-- C6: the probe never mutates the document: running it any number of
times leaves the document component of the browser state unchanged; it only
appends to the console. -/
theorem probe_never_mutates_document (s : BrowserState) (n : Nat) :
    (runProbe^[n] s).document = s.document := by
  induction n generalizing s with
  | zero => rfl
  | succ n ih =>
      rw [Function.iterate_succ_apply, ih]
      rfl

/-- C7: when the document holds two or more `main` elements, the query
yields the first in document order as its single match, and the probe
reports that element's inner-markup length. -/
theorem duplicate_mains_first_reported (doc : Document)
    (e1 e2 : Node) (rest : List Node)
    (h : matchingElements "main" doc = e1 :: e2 :: rest) :
    Document.querySelector doc "main" = some e1 ∧
    domContentLoadedHandler doc =
      [Diag.initSuccess, Diag.contentFound e1.innerHTML.length] := by
  have hq : Document.querySelector doc "main" = some e1 := by
    simp [Document.querySelector, h]
  exact ⟨hq, by simp [domContentLoadedHandler, hq]⟩

/-- C7 witness: with two `main` elements, `<main>A</main>` then
`<main>BB</main>`, the query returns the first and the probe reports its
inner length 1. -/
theorem duplicate_mains_first_reported_witness :
    Document.querySelector
        [Node.element "main" [Node.text "A"],
         Node.element "main" [Node.text "BB"]] "main" =
      some (Node.element "main" [Node.text "A"]) ∧
    domContentLoadedHandler
        [Node.element "main" [Node.text "A"],
         Node.element "main" [Node.text "BB"]] =
      [Diag.initSuccess, Diag.contentFound 1] :=
  duplicate_mains_first_reported _ (Node.element "main" [Node.text "A"])
    (Node.element "main" [Node.text "BB"]) [] rfl

/-- C8: the probe body runs at most once per page load: the script holds
exactly one registration, against the one-shot content-loaded lifecycle
event, which fires once, and the page load's whole diagnostic output is
exactly one execution of the handler body. -/
theorem handler_runs_exactly_once (doc : Document) :
    runPageLoad doc = domContentLoadedHandler doc ∧
    firedLifecycleEvents = ["DOMContentLoaded"] ∧
    scriptRegistrations.length = 1 := by
  refine ⟨?_, rfl, rfl⟩
  show (domContentLoadedHandler doc ++ []) ++ [] = domContentLoadedHandler doc
  simp

/-- C10: the probe's diagnostic output is a function of only the existence
of a first `main` element and, when it exists, its inner-markup length:
two documents agreeing on that observation produce identical diagnostic
sequences. -/
theorem diag_output_determined_by_observation (d1 d2 : Document)
    (h : (Document.querySelector d1 "main").map (fun e => e.innerHTML.length) =
         (Document.querySelector d2 "main").map (fun e => e.innerHTML.length)) :
    domContentLoadedHandler d1 = domContentLoadedHandler d2 := by
  cases h1 : Document.querySelector d1 "main" with
  | none =>
      cases h2 : Document.querySelector d2 "main" with
      | none => simp [domContentLoadedHandler, h1, h2]
      | some e2 => simp [h1, h2] at h
  | some e1 =>
      cases h2 : Document.querySelector d2 "main" with
      | none => simp [h1, h2] at h
      | some e2 =>
          simp [h1, h2] at h
          simp [domContentLoadedHandler, h1, h2, h]

/-- C10 witness: `<main>ab</main>` and `<div><main>xy</main></div>` agree
on the observation (a `main` exists, inner length 2) and get identical
diagnostic sequences. -/
theorem diag_output_determined_by_observation_witness :
    domContentLoadedHandler [Node.element "main" [Node.text "ab"]] =
      domContentLoadedHandler
        [Node.element "div" [Node.element "main" [Node.text "xy"]]] :=
  diag_output_determined_by_observation _ _ rfl

end PlatefulAI
